import Mathlib

/-!
Shallow embedding of the georm derive-macro generation pipeline.

The definitions below are translated from the Rust sources of the
repository (`georm-macros/src/georm/...`).  Proc-macro token streams are
modelled as explicit records carrying the data the emitted code depends
on (query strings, column lists, bind orders, derive lists); panics and
`syn::Error` returns are modelled with `Except String`.
-/

namespace Georm

/-- Shallow model of a Rust type (`syn::Type`): a path type keeps the
idents of its segments, anything else is collapsed into a tag. -/
inductive RsType where
  | path (segments : List String)
  | other (tag : String)
deriving DecidableEq

/-- `GeormField::is_option_type` (ir/mod.rs): a type is `Option<T>` when
the last segment of its path is the ident `Option`. -/
def is_option_type : RsType → Bool
  | .path segments => segments.getLast? == some "Option"
  | .other _ => false

/-- `O2ORelationship` (ir/mod.rs): the inline relation descriptor a field
may carry.  The entity type is kept as its name. -/
structure O2ORelationship where
  entity : String
  table : String
  remote_id : String
  nullable : Bool
  name : String
deriving DecidableEq

/-- `GeormFieldAttributes` (ir/mod.rs): the extracted `#[georm(...)]`
attributes of one field. -/
structure GeormFieldAttributes where
  id : Bool
  relation : Option O2ORelationship
  defaultable : Bool
deriving DecidableEq

/-- A `syn::Field` together with its already-parsed georm attributes,
the input of `GeormField::new`. -/
structure Field where
  ident : String
  ty : RsType
  attrs : GeormFieldAttributes
deriving DecidableEq

/-- `GeormField` (ir/mod.rs). -/
structure GeormField where
  ident : String
  ty : RsType
  id : Bool
  relation : Option O2ORelationship
  defaultable : Bool
deriving DecidableEq

/-- `GeormField::new` (ir/mod.rs).  The source validates that
`defaultable` is not used on an `Option<T>` field and otherwise builds
the record; the panic on violation is modelled as `Except.error` with
the panic message. -/
def GeormField.new (field : Field) : Except String GeormField :=
  if field.attrs.defaultable && is_option_type field.ty then
    .error ("Field '" ++ field.ident ++
      "' is already an Option<T> and cannot be marked as defaultable. Remove the #[georm(defaultable)] attribute.")
  else
    .ok { ident := field.ident, ty := field.ty, id := field.attrs.id,
          relation := field.attrs.relation, defaultable := field.attrs.defaultable }

/-- `extract_georm_field_attrs` (georm/mod.rs): parses every field and
then checks the number of identifier fields, accepting exactly one.
Zero identifiers and two-or-more identifiers are `syn::Error`s in the
source, modelled as `Except.error` with the source's message text. -/
def extract_georm_field_attrs (fields : List Field) :
    Except String (List GeormField × GeormField) :=
  match fields.mapM GeormField.new with
  | .error e => .error e
  | .ok gfields =>
  match gfields.filter (fun f => f.id) with
  | [] => .error "Struct {name} must have one identifier"
  | [theId] => .ok (gfields, theId)
  | id1 :: id2 :: _ =>
    .error ("Field " ++ id1.ident ++ " cannot be an identifier, " ++ id2.ident ++
      " already is one.\nOnly one identifier is supported.")

/-- `IdField` (composite_keys.rs). -/
structure IdField where
  name : String
  ty : RsType
deriving DecidableEq

/-- `IdType` (composite_keys.rs): the identifier shape tag. -/
inductive IdType where
  | simple (field_name : String) (field_type : RsType)
  | composite (fields : List IdField) (field_type : String)
deriving DecidableEq

/-- The struct definition emitted by `generate_struct`
(composite_keys.rs): its name, the derive attributes attached to it, and
its fields (name and type, public).  The source's `quote!` block emits
the struct with no attribute, so `derives` is the empty list. -/
structure StructDef where
  name : String
  derives : List String
  fields : List (String × RsType)
deriving DecidableEq

/-- `generate_struct` (composite_keys.rs): synthesizes the
`<StructName>Id` struct holding every identifier field. -/
def generate_struct (structName : String) (fields : List GeormField) :
    String × StructDef :=
  let id_struct_name := structName ++ "Id"
  let kept := fields.filterMap
    (fun field => if field.id then some (field.ident, field.ty) else none)
  (id_struct_name, { name := id_struct_name, derives := [], fields := kept })

/-- `create_primary_key` (composite_keys.rs).  The emitted token stream
is `none` for the simple shape (the source emits an empty stream) and
the synthesized struct for the composite shape; the panic on zero
identifier fields is modelled as `Except.error`. -/
def create_primary_key (structName : String) (fields : List GeormField) :
    Except String (IdType × Option StructDef) :=
  let id_fields : List IdField :=
    (fields.filter (fun f => f.id)).map (fun field => { name := field.ident, ty := field.ty })
  match id_fields with
  | [] => .error "No ID field found"
  | [f] => .ok (.simple f.name f.ty, none)
  | _ =>
    let res := generate_struct structName fields
    .ok (.composite id_fields res.1, some res.2)

/-- The spec's wording of value equality for the synthesized key record:
in this shallow embedding of the emitted code an equality implementation
can only come from a derive attribute on the emitted struct. -/
def derives_value_equality (s : StructDef) : Prop :=
  "PartialEq" ∈ s.derives

/-- How the generated accessor fetches rows, mirroring the sqlx call
emitted by the macro (`fetch_one`, `fetch_optional`, `fetch_all`). -/
inductive FetchKind where
  | one
  | optional
  | all
deriving DecidableEq

/-- The declared return shape of a generated accessor:: the bare entity,
`Option<Entity>`, or `Vec<Entity>`. -/
inductive RetKind where
  | plain
  | optionalRow
  | many
deriving DecidableEq

/-- What the generated accessor binds to placeholder `$1`: a local field
of the entity (`self.<field>`) or the entity's identifier
(`self.get_id()`). -/
inductive BindSource where
  | field (name : String)
  | getId
deriving DecidableEq

/-- One generated relationship accessor method. -/
structure AccessorMethod where
  name : String
  entity : String
  ret : RetKind
  query : String
  fetch : FetchKind
  bind : BindSource
deriving DecidableEq

/-- `impl From<&GeormField> for TokenStream` (ir/mod.rs): the field-level
one-to-one accessor, `none` when the field carries no relation. -/
def gfield_accessor (value : GeormField) : Option AccessorMethod :=
  value.relation.map (fun relation =>
    { name := "get_" ++ relation.name
      entity := relation.entity
      ret := if relation.nullable then .optionalRow else .plain
      query := "SELECT * FROM " ++ relation.table ++ " WHERE " ++ relation.remote_id ++ " = $1"
      fetch := if relation.nullable then .optional else .one
      bind := .field value.ident })

/-- `SimpleRelationship` (ir/simple_relationship.rs), entity kept as its
name; the phantom type parameter is expressed by which accessor builder
is applied. -/
structure SimpleRelationship where
  name : String
  remote_id : String
  table : String
  entity : String
deriving DecidableEq

/-- `SimpleRelationship::make_query`. -/
def SimpleRelationship.make_query (s : SimpleRelationship) : String :=
  "SELECT * FROM " ++ s.table ++ " WHERE " ++ s.remote_id ++ " = $1"

/-- `impl From<&SimpleRelationship<OneToOne>> for TokenStream`. -/
def o2o_remote_accessor (s : SimpleRelationship) : AccessorMethod :=
  { name := "get_" ++ s.name, entity := s.entity, ret := .optionalRow,
    query := s.make_query, fetch := .optional, bind := .getId }

/-- `impl From<&SimpleRelationship<OneToMany>> for TokenStream`. -/
def o2m_accessor (s : SimpleRelationship) : AccessorMethod :=
  { name := "get_" ++ s.name, entity := s.entity, ret := .many,
    query := s.make_query, fetch := .all, bind := .getId }

/-- `M2MLink` (ir/m2m_relationship.rs); `from`/`to` are renamed since
`from` is a Lean keyword. -/
structure M2MLink where
  table : String
  fromCol : String
  toCol : String
deriving DecidableEq

/-- `M2MRelationship` (ir/m2m_relationship.rs). -/
structure M2MRelationship where
  name : String
  entity : String
  table : String
  remote_id : String
  link : M2MLink
deriving DecidableEq

/-- `Identifier` (ir/m2m_relationship.rs). -/
structure Identifier where
  table : String
  id : String
deriving DecidableEq

/-- `M2MRelationshipComplete` (ir/m2m_relationship.rs). -/
structure M2MRelationshipComplete where
  name : String
  entity : String
  local_id : Identifier
  remote : Identifier
  link : M2MLink
deriving DecidableEq

/-- `M2MRelationshipComplete::new`. -/
def M2MRelationshipComplete.new (other : M2MRelationship) (local_table : String)
    (localId : String) : M2MRelationshipComplete :=
  { name := other.name, entity := other.entity, link := other.link,
    local_id := { table := local_table, id := localId },
    remote := { table := other.table, id := other.remote_id } }

/-- `impl From<&M2MRelationshipComplete> for TokenStream`. -/
def m2m_accessor (value : M2MRelationshipComplete) : AccessorMethod :=
  { name := "get_" ++ value.name
    entity := value.entity
    ret := .many
    query := "SELECT remote.*\nFROM " ++ value.local_id.table ++ " local\nJOIN " ++
      value.link.table ++ " link ON link." ++ value.link.fromCol ++ " = local." ++
      value.local_id.id ++ "\nJOIN " ++ value.remote.table ++ " remote ON link." ++
      value.link.toCol ++ " = remote." ++ value.remote.id ++ "\nWHERE local." ++
      value.local_id.id ++ " = $1"
    fetch := .all
    bind := .getId }

/-- `GeormStructAttributes` (ir/mod.rs). -/
structure GeormStructAttributes where
  table : String
  one_to_one : List SimpleRelationship
  one_to_many : List SimpleRelationship
  many_to_many : List M2MRelationship
deriving DecidableEq

/-- Result of `derive_relationships` (relationships.rs): the diagnostic
printed to stderr, if any, and the accessor methods of the emitted
`impl` block. -/
structure RelationshipsOutput where
  warning : Option String
  methods : List AccessorMethod
deriving DecidableEq

/-- `derive_relationships` (relationships.rs): for a composite
identifier it prints a warning and emits no code at all; for a simple
identifier it emits the field-level, struct-level and many-to-many
accessors. -/
def derive_relationships (structName : String) (struct_attrs : GeormStructAttributes)
    (fields : List GeormField) (id : IdType) : RelationshipsOutput :=
  match id with
  | .composite _ _ =>
    { warning := some ("Warning: entity " ++ structName ++
        ": Relationships are not supported for entities with composite primary keys yet")
      methods := [] }
  | .simple field_name _ =>
    { warning := none
      methods :=
        fields.filterMap gfield_accessor ++
        struct_attrs.one_to_one.map o2o_remote_accessor ++
        struct_attrs.one_to_many.map o2m_accessor ++
        (struct_attrs.many_to_many.map
          (fun v => M2MRelationshipComplete.new v struct_attrs.table field_name)).map
          m2m_accessor }

/-- Modelled from the spec: the error type of the external sqlx client;
only the absent-row case matters here (spec section 4.3: "exactly one
expected" semantics make absence an error). -/
inductive SqlxError where
  | rowNotFound
deriving DecidableEq

/-- Modelled from the spec: sqlx's `fetch_one` — single-row fetch with
"exactly one expected" semantics, absence is an error (spec section 4.3). -/
def fetch_one {α : Type} (rows : List α) : Except SqlxError α :=
  match rows with
  | [] => .error .rowNotFound
  | r :: _ => .ok r

/-- Modelled from the spec: sqlx's `fetch_optional` — "zero or one"
semantics, absence yields an empty result, not an error (spec 4.3). -/
def fetch_optional {α : Type} (rows : List α) : Except SqlxError (Option α) :=
  .ok rows.head?

/-- Modelled from the spec: sqlx's `fetch_all` — zero-or-many fetch. -/
def fetch_all {α : Type} (rows : List α) : Except SqlxError (List α) :=
  .ok rows

/-- The value a generated accessor produces at run time. -/
inductive FetchResult (α : Type) where
  | one (row : α)
  | optionalRow (row : Option α)
  | many (rows : List α)
deriving DecidableEq

/-- Running a generated accessor against the rows the backend returns
for its query: dispatches on the fetch call the macro emitted. -/
def run_accessor {α : Type} (m : AccessorMethod) (rows : List α) :
    Except SqlxError (FetchResult α) :=
  match m.fetch with
  | .one => (fetch_one rows).map .one
  | .optional => (fetch_optional rows).map .optionalRow
  | .all => (fetch_all rows).map .many

/-- A field of the generated `<StructName>Default` companion at call
time: non-defaultable fields keep their value, defaultable fields hold
an `Option` (defaultable_struct.rs, `create_defaultable_field`).  Values
are concrete strings, standing for the bound SQL values. -/
inductive DefField where
  | required (name : String) (value : String)
  | defaultable (name : String) (value : Option String)
deriving DecidableEq

/-- The field's column name. -/
def DefField.name : DefField → String
  | .required n _ => n
  | .defaultable n _ => n

/-- Whether the field was marked `#[georm(defaultable)]`. -/
def DefField.is_defaultable : DefField → Bool
  | .required _ _ => false
  | .defaultable _ _ => true

/-- The value currently held: always present for required fields. -/
def DefField.opt_value : DefField → Option String
  | .required _ v => some v
  | .defaultable _ o => o

/-- The INSERT the defaultable companion's `create` builds at call time. -/
structure DynInsert where
  columns : List String
  placeholders : List String
  query : String
  binds : List String
deriving DecidableEq

/-- Call-time behavior of the `create` method emitted by
`generate_defaultable_trait_impl` (defaultable_struct.rs): static
(non-defaultable) columns first, then each defaultable field whose
`Option` holds a value; placeholders `$1..$n` over the combined list;
binds are the static values followed by the present defaultable values,
mirroring the emitted `field_checks`/`bind_checks` loops. -/
def defaultable_create (table : String) (self : List DefField) : DynInsert :=
  let static_fields := self.filter (fun f => !f.is_defaultable)
  let defaultable_fields := self.filter (fun f => f.is_defaultable)
  let dynamic_fields :=
    (defaultable_fields.filter (fun f => f.opt_value.isSome)).map DefField.name
  let all_fields := static_fields.map DefField.name ++ dynamic_fields
  let placeholders := (List.range all_fields.length).map (fun i => "$" ++ toString (i + 1))
  { columns := all_fields
    placeholders := placeholders
    query := "INSERT INTO " ++ table ++ " (" ++ String.intercalate ", " all_fields ++
      ") VALUES (" ++ String.intercalate ", " placeholders ++ ") RETURNING *"
    binds := static_fields.filterMap DefField.opt_value ++
      defaultable_fields.filterMap DefField.opt_value }

/-- The spec's wording for claim C3 ("in the entity's original field
declaration order"): all fields whose value is present, in declaration
order.  Compared against `defaultable_create`, which is translated from
the source. -/
def declaration_order_columns (self : List DefField) : List String :=
  (self.filter (fun f => f.opt_value.isSome)).map DefField.name

/-- The instance's value for a column name, used to state bind-order
correctness. -/
def lookup_value (self : List DefField) (c : String) : Option String :=
  (self.find? (fun f => f.name == c)).bind DefField.opt_value

/-- The UPDATE query synthesized by `generate_update_query`
(trait_implementation.rs and traits/update.rs, identical): the rendered
query plus the pieces it is rendered from and the bind order
(`all_fields` in the source). -/
structure UpdateQuery where
  query : String
  set_parts : List String
  where_parts : List String
  binds : List String
deriving DecidableEq

/-- `generate_update_query` (trait_implementation.rs / traits/update.rs).
The source pushes each identifier's name onto `all_fields` while mapping
the enumerated identifier fields to WHERE fragments; the push-during-map
is modelled as a fold building both lists. -/
def generate_update_query (table : String) (fields : List GeormField) (id : IdType) :
    UpdateQuery :=
  let non_id_fields := fields.filterMap (fun f => if f.id then none else some f.ident)
  let update_columns :=
    non_id_fields.enum.map (fun p => p.2 ++ " = $" ++ toString (p.1 + 1))
  let step := match id with
    | .simple field_name _ =>
      ([field_name ++ " = $" ++ toString (non_id_fields.length + 1)],
        non_id_fields ++ [field_name])
    | .composite ifields _ =>
      ifields.enum.foldl
        (fun (acc : List String × List String) (p : Nat × IdField) =>
          (acc.1 ++ [p.2.name ++ " = $" ++ toString (non_id_fields.length + p.1 + 1)],
            acc.2 ++ [p.2.name]))
        ([], non_id_fields)
  { query := "UPDATE " ++ table ++ " SET " ++ String.intercalate ", " update_columns ++
      " WHERE " ++ String.intercalate " AND " step.1 ++ " RETURNING *"
    set_parts := update_columns
    where_parts := step.1
    binds := step.2 }

/-- The upsert query synthesized by `generate_upsert_query`
(trait_implementation.rs and traits/upsert.rs, identical). -/
structure UpsertQuery where
  query : String
  columns : List String
  values : List String
  conflict_target : List String
  update_assignments : List String
  binds : List String
deriving DecidableEq

/-- `generate_upsert_query` (trait_implementation.rs / traits/upsert.rs). -/
def generate_upsert_query (table : String) (fields : List GeormField) (id : IdType) :
    UpsertQuery :=
  let inputs := (List.range fields.length).map (fun i => "$" ++ toString (i + 1))
  let columns := fields.map (fun f => f.ident)
  let primary_key := match id with
    | .simple field_name _ => [field_name]
    | .composite ifields _ => ifields.map (fun f => f.name)
  let update_assignments :=
    (fields.filter (fun f => !f.id)).map (fun f => f.ident ++ " = EXCLUDED." ++ f.ident)
  { query := "INSERT INTO " ++ table ++ " (" ++ String.intercalate ", " columns ++
      ") VALUES (" ++ String.intercalate ", " inputs ++ ") ON CONFLICT (" ++
      String.intercalate ", " primary_key ++ ") DO UPDATE SET " ++
      String.intercalate ", " update_assignments ++ " RETURNING *"
    columns := columns
    values := inputs
    conflict_target := primary_key
    update_assignments := update_assignments
    binds := fields.map (fun f => f.ident) }

end Georm

/-- Claim C8: marking a field defaultable while its declared type is
already `Option<T>` makes attribute extraction fail at generation time
with an error message naming the offending field. -/
theorem georm_field_new_rejects_defaultable_option (field : Georm.Field)
    (hdef : field.attrs.defaultable = true)
    (hopt : Georm.is_option_type field.ty = true) :
    Georm.GeormField.new field =
      .error ("Field '" ++ field.ident ++
        "' is already an Option<T> and cannot be marked as defaultable. Remove the #[georm(defaultable)] attribute.") := by
  unfold Georm.GeormField.new
  rw [hdef, hopt]
  rfl

/-- Witness for C8: the concrete field `bio : Option<String>` marked
defaultable is rejected with the message naming `bio`. -/
theorem georm_field_new_rejects_defaultable_option_witness :
    (({ ident := "bio", ty := .path ["Option"],
        attrs := { id := false, relation := none, defaultable := true } } :
          Georm.Field).attrs.defaultable = true ∧
      Georm.is_option_type (Georm.RsType.path ["Option"]) = true) ∧
    Georm.GeormField.new
        { ident := "bio", ty := .path ["Option"],
          attrs := { id := false, relation := none, defaultable := true } } =
      .error ("Field '" ++ "bio" ++
        "' is already an Option<T> and cannot be marked as defaultable. Remove the #[georm(defaultable)] attribute.") :=
  ⟨⟨rfl, rfl⟩,
    georm_field_new_rejects_defaultable_option _ rfl rfl⟩

/-- Claim C9: an entity definition with zero identifier fields fails at
generation time, both in attribute extraction (`syn::Error` stating the
struct must have one identifier) and in the identifier resolver (panic
"No ID field found"); no operation set is produced. -/
theorem zero_identifiers_generation_error (fields : List Georm.Field)
    (gfields : List Georm.GeormField) (structName : String)
    (hparse : fields.mapM Georm.GeormField.new = .ok gfields)
    (hnoid : ∀ f ∈ gfields, f.id = false) :
    Georm.extract_georm_field_attrs fields =
      .error "Struct {name} must have one identifier" ∧
    Georm.create_primary_key structName gfields = .error "No ID field found" := by
  have hfilter : gfields.filter (fun f => f.id) = [] := by
    rw [List.filter_eq_nil_iff]
    intro f hf
    simp [hnoid f hf]
  constructor
  · unfold Georm.extract_georm_field_attrs
    rw [hparse]
    simp only [hfilter]
  · unfold Georm.create_primary_key
    rw [hfilter]
    rfl

/-- Witness for C9: a one-field struct whose field is not an identifier
is rejected by both stages. -/
theorem zero_identifiers_generation_error_witness :
    (([({ ident := "title", ty := .path ["String"],
          attrs := { id := false, relation := none, defaultable := false } } :
            Georm.Field)].mapM Georm.GeormField.new =
        .ok [{ ident := "title", ty := .path ["String"], id := false,
               relation := none, defaultable := false }]) ∧
      (∀ f ∈ [({ ident := "title", ty := .path ["String"], id := false,
                 relation := none, defaultable := false } : Georm.GeormField)],
        f.id = false)) ∧
    (Georm.extract_georm_field_attrs
        [{ ident := "title", ty := .path ["String"],
           attrs := { id := false, relation := none, defaultable := false } }] =
      .error "Struct {name} must have one identifier" ∧
    Georm.create_primary_key "Book"
        [{ ident := "title", ty := .path ["String"], id := false,
           relation := none, defaultable := false }] =
      .error "No ID field found") :=
  ⟨⟨rfl, by decide⟩,
    zero_identifiers_generation_error _ _ "Book" rfl (by decide)⟩

/-- Helper: the source's `filter_map` with an `if`-guard equals mapping
over the filtered list. -/
theorem list_filterMap_if_eq_map_filter {α β : Type} (p : α → Bool) (g : α → β)
    (l : List α) :
    l.filterMap (fun a => if p a then some (g a) else none) = (l.filter p).map g := by
  induction l with
  | nil => rfl
  | cons a t ih => cases hp : p a <;> simp [List.filterMap_cons, List.filter_cons, hp, ih]

/-- Claim C1 (amended): with two or more identifier fields the
identifier resolver derives the Composite shape and synthesizes a key
record named `<EntityName>Id` containing exactly the identifier fields
(name and type, in declaration order); the synthesized record carries no
derive, in particular no value-equality implementation. -/
theorem composite_id_struct_synthesis (structName : String)
    (gfields : List Georm.GeormField)
    (h2 : 2 ≤ (gfields.filter (fun f => f.id)).length) :
    Georm.create_primary_key structName gfields =
      .ok (.composite
            ((gfields.filter (fun f => f.id)).map
              (fun f => { name := f.ident, ty := f.ty }))
            (structName ++ "Id"),
          some { name := structName ++ "Id", derives := [],
                 fields := (gfields.filter (fun f => f.id)).map
                   (fun f => (f.ident, f.ty)) }) := by
  unfold Georm.create_primary_key Georm.generate_struct
  rw [list_filterMap_if_eq_map_filter]
  cases hl : gfields.filter (fun f => f.id) with
  | nil => rw [hl] at h2; simp at h2
  | cons a rest =>
    cases rest with
    | nil => rw [hl] at h2; simp at h2
    | cons b t => rfl

/-- Witness for C1: the `UserRole` entity with identifier fields
`user_id` and `role_id` yields the Composite shape and the `UserRoleId`
struct with exactly those two fields. -/
theorem composite_id_struct_synthesis_witness :
    2 ≤ (([{ ident := "user_id", ty := .path ["i32"], id := true,
             relation := none, defaultable := false },
           { ident := "role_id", ty := .path ["i32"], id := true,
             relation := none, defaultable := false },
           { ident := "assigned_at", ty := .path ["DateTime"], id := false,
             relation := none, defaultable := false }] :
            List Georm.GeormField).filter (fun f => f.id)).length ∧
    Georm.create_primary_key "UserRole"
        [{ ident := "user_id", ty := .path ["i32"], id := true,
           relation := none, defaultable := false },
         { ident := "role_id", ty := .path ["i32"], id := true,
           relation := none, defaultable := false },
         { ident := "assigned_at", ty := .path ["DateTime"], id := false,
           relation := none, defaultable := false }] =
      .ok (.composite
            [{ name := "user_id", ty := .path ["i32"] },
             { name := "role_id", ty := .path ["i32"] }]
            "UserRoleId",
          some { name := "UserRoleId", derives := [],
                 fields := [("user_id", .path ["i32"]),
                            ("role_id", .path ["i32"])] }) :=
  ⟨by decide, composite_id_struct_synthesis "UserRole" _ (by decide)⟩

/-- Counterexample for C1: the key record synthesized for `UserRole`
(identifier fields `user_id`, `role_id`) carries no derive at all, so it
does not implement value equality as the claim states. -/
theorem composite_id_struct_no_value_equality :
    ¬ Georm.derives_value_equality
        (Georm.generate_struct "UserRole"
          [{ ident := "user_id", ty := .path ["i32"], id := true,
             relation := none, defaultable := false },
           { ident := "role_id", ty := .path ["i32"], id := true,
             relation := none, defaultable := false },
           { ident := "assigned_at", ty := .path ["DateTime"], id := false,
             relation := none, defaultable := false }]).2 := by
  unfold Georm.derives_value_equality Georm.generate_struct
  decide

/-- Claim C2 (code bug): for the two-identifier entity `UserRole` with a
relationship block, attribute extraction in georm/mod.rs hard-errors
("Only one identifier is supported"), so generation does not complete —
although `derive_relationships` itself, given the Composite shape,
emits no accessor methods and only the diagnostic, as the claim (and the
repository's own composite-key tests) expect. -/
theorem composite_entity_extraction_rejects_but_relationships_suppress :
    Georm.extract_georm_field_attrs
        [{ ident := "user_id", ty := .path ["i32"],
           attrs := { id := true, relation := none, defaultable := false } },
         { ident := "role_id", ty := .path ["i32"],
           attrs := { id := true, relation := none, defaultable := false } },
         { ident := "assigned_at", ty := .path ["DateTime"],
           attrs := { id := false, relation := none, defaultable := false } }] =
      .error ("Field " ++ "user_id" ++ " cannot be an identifier, " ++ "role_id" ++
        " already is one.\nOnly one identifier is supported.") ∧
    (Georm.derive_relationships "UserRole"
        { table := "user_roles", one_to_one := [],
          one_to_many := [{ name := "assignments", remote_id := "user_role_id",
                            table := "assignments", entity := "Assignment" }],
          many_to_many := [] }
        [{ ident := "user_id", ty := .path ["i32"], id := true,
           relation := none, defaultable := false },
         { ident := "role_id", ty := .path ["i32"], id := true,
           relation := none, defaultable := false },
         { ident := "assigned_at", ty := .path ["DateTime"], id := false,
           relation := none, defaultable := false }]
        (.composite [{ name := "user_id", ty := .path ["i32"] },
                     { name := "role_id", ty := .path ["i32"] }] "UserRoleId")).methods =
      [] ∧
    (Georm.derive_relationships "UserRole"
        { table := "user_roles", one_to_one := [],
          one_to_many := [{ name := "assignments", remote_id := "user_role_id",
                            table := "assignments", entity := "Assignment" }],
          many_to_many := [] }
        [{ ident := "user_id", ty := .path ["i32"], id := true,
           relation := none, defaultable := false },
         { ident := "role_id", ty := .path ["i32"], id := true,
           relation := none, defaultable := false },
         { ident := "assigned_at", ty := .path ["DateTime"], id := false,
           relation := none, defaultable := false }]
        (.composite [{ name := "user_id", ty := .path ["i32"] },
                     { name := "role_id", ty := .path ["i32"] }] "UserRoleId")).warning =
      some ("Warning: entity " ++ "UserRole" ++
        ": Relationships are not supported for entities with composite primary keys yet") :=
  ⟨rfl, rfl, rfl⟩

/-- Claim C7: a field-level relation accessor is generated with
`Option` result and `fetch_optional` when nullable (no matching row
yields an absent result, not an error), and with the bare entity result
and `fetch_one` when non-nullable (no matching row is an error). -/
theorem nullable_relation_accessor_semantics (f : Georm.GeormField)
    (r : Georm.O2ORelationship) (hrel : f.relation = some r) :
    ∃ m : Georm.AccessorMethod, Georm.gfield_accessor f = some m ∧
      m.query = "SELECT * FROM " ++ r.table ++ " WHERE " ++ r.remote_id ++ " = $1" ∧
      m.bind = .field f.ident ∧
      (r.nullable = true →
        m.ret = .optionalRow ∧ m.fetch = .optional ∧
        Georm.run_accessor m ([] : List String) = .ok (.optionalRow none)) ∧
      (r.nullable = false →
        m.ret = .plain ∧ m.fetch = .one ∧
        Georm.run_accessor m ([] : List String) = .error .rowNotFound) := by
  unfold Georm.gfield_accessor
  rw [hrel]
  refine ⟨_, rfl, rfl, rfl, ?_, ?_⟩
  · intro hn
    refine ⟨by simp [hn], by simp [hn], ?_⟩
    simp [Georm.run_accessor, Georm.fetch_optional, hn, Except.map]
  · intro hn
    refine ⟨by simp [hn], by simp [hn], ?_⟩
    simp [Georm.run_accessor, Georm.fetch_one, hn, Except.map]

/-- Witness for C7: `Author.biography_id` with its nullable `biography`
relation gets a `fetch_optional` accessor returning `Ok(None)` on no
rows; the same field with `nullable = false` would get `fetch_one`. -/
theorem nullable_relation_accessor_semantics_witness :
    (({ ident := "biography_id", ty := .path ["Option"], id := false,
        relation := some { entity := "Biography", table := "biographies",
                           remote_id := "id", nullable := true, name := "biography" },
        defaultable := false } : Georm.GeormField).relation =
      some { entity := "Biography", table := "biographies", remote_id := "id",
             nullable := true, name := "biography" }) ∧
    (∃ m : Georm.AccessorMethod,
      Georm.gfield_accessor
          { ident := "biography_id", ty := .path ["Option"], id := false,
            relation := some { entity := "Biography", table := "biographies",
                               remote_id := "id", nullable := true, name := "biography" },
            defaultable := false } = some m ∧
      m.query = "SELECT * FROM " ++ "biographies" ++ " WHERE " ++ "id" ++ " = $1" ∧
      m.bind = .field "biography_id" ∧
      (true = true →
        m.ret = .optionalRow ∧ m.fetch = .optional ∧
        Georm.run_accessor m ([] : List String) = .ok (.optionalRow none)) ∧
      (true = false →
        m.ret = .plain ∧ m.fetch = .one ∧
        Georm.run_accessor m ([] : List String) = .error .rowNotFound)) :=
  ⟨rfl,
    nullable_relation_accessor_semantics
      { ident := "biography_id", ty := .path ["Option"], id := false,
        relation := some { entity := "Biography", table := "biographies",
                           remote_id := "id", nullable := true, name := "biography" },
        defaultable := false }
      { entity := "Biography", table := "biographies", remote_id := "id",
        nullable := true, name := "biography" }
      rfl⟩

/-- Helper: folding the empty SET-assignment string into the literal
around it, for the update query. -/
theorem update_set_empty_render (t w r : String) :
    "UPDATE " ++ t ++ " SET " ++ "" ++ " WHERE " ++ w ++ r =
      "UPDATE " ++ t ++ " SET  WHERE " ++ w ++ r := by
  rw [String.append_empty, String.append_assoc ("UPDATE " ++ t) " SET " " WHERE "]
  rfl

/-- Helper: folding the empty DO-UPDATE-SET assignment string into the
literal around it, for the upsert query. -/
theorem upsert_do_update_empty_render (y : String) :
    y ++ ") DO UPDATE SET " ++ "" ++ " RETURNING *" =
      y ++ ") DO UPDATE SET  RETURNING *" := by
  rw [String.append_empty, String.append_assoc y ") DO UPDATE SET " " RETURNING *"]
  rfl

/-- Claim C10: when every field is an identifier the update and upsert
synthesizers still produce query text, with an empty SET assignment list
(`UPDATE <table> SET  WHERE ...`) and an empty `DO UPDATE SET` list;
no precondition excludes this case. -/
theorem all_identifier_fields_empty_set_clause (table : String)
    (fields : List Georm.GeormField) (id : Georm.IdType)
    (hall : ∀ f ∈ fields, f.id = true) :
    (Georm.generate_update_query table fields id).set_parts = [] ∧
    (Georm.generate_update_query table fields id).query =
      "UPDATE " ++ table ++ " SET  WHERE " ++
        String.intercalate " AND "
          (Georm.generate_update_query table fields id).where_parts ++
        " RETURNING *" ∧
    (Georm.generate_upsert_query table fields id).update_assignments = [] ∧
    (Georm.generate_upsert_query table fields id).query =
      "INSERT INTO " ++ table ++ " (" ++
        String.intercalate ", " (fields.map (fun f => f.ident)) ++ ") VALUES (" ++
        String.intercalate ", "
          ((List.range fields.length).map (fun i => "$" ++ toString (i + 1))) ++
        ") ON CONFLICT (" ++
        String.intercalate ", "
          (Georm.generate_upsert_query table fields id).conflict_target ++
        ") DO UPDATE SET  RETURNING *" := by
  have hnil : fields.filterMap (fun f => if f.id then none else some f.ident) = [] := by
    rw [List.filterMap_eq_nil_iff]
    intro f hf
    simp [hall f hf]
  have hne : fields.filter (fun f => !f.id) = [] := by
    rw [List.filter_eq_nil_iff]
    intro f hf
    simp [hall f hf]
  have hset : (Georm.generate_update_query table fields id).set_parts =
      (fields.filterMap (fun f => if f.id then none else some f.ident)).enum.map
        (fun p => p.2 ++ " = $" ++ toString (p.1 + 1)) := rfl
  have hupd : (Georm.generate_update_query table fields id).query =
      "UPDATE " ++ table ++ " SET " ++
        String.intercalate ", "
          ((fields.filterMap (fun f => if f.id then none else some f.ident)).enum.map
            (fun p => p.2 ++ " = $" ++ toString (p.1 + 1))) ++
        " WHERE " ++
        String.intercalate " AND "
          (Georm.generate_update_query table fields id).where_parts ++
        " RETURNING *" := rfl
  have hassign : (Georm.generate_upsert_query table fields id).update_assignments =
      (fields.filter (fun f => !f.id)).map
        (fun f => f.ident ++ " = EXCLUDED." ++ f.ident) := rfl
  have hups : (Georm.generate_upsert_query table fields id).query =
      "INSERT INTO " ++ table ++ " (" ++
        String.intercalate ", " (fields.map (fun f => f.ident)) ++ ") VALUES (" ++
        String.intercalate ", "
          ((List.range fields.length).map (fun i => "$" ++ toString (i + 1))) ++
        ") ON CONFLICT (" ++
        String.intercalate ", "
          (Georm.generate_upsert_query table fields id).conflict_target ++
        ") DO UPDATE SET " ++
        String.intercalate ", "
          ((fields.filter (fun f => !f.id)).map
            (fun f => f.ident ++ " = EXCLUDED." ++ f.ident)) ++
        " RETURNING *" := rfl
  rw [hnil] at hset hupd
  rw [hne] at hassign hups
  refine ⟨hset, ?_, hassign, ?_⟩
  · exact hupd.trans (update_set_empty_render table _ _)
  · exact hups.trans (upsert_do_update_empty_render _)

/-- Witness for C10: the `UserRole`-like entity whose two fields are both
identifiers gets `UPDATE user_roles SET  WHERE ... RETURNING *`. -/
theorem all_identifier_fields_empty_set_clause_witness :
    (∀ f ∈ ([{ ident := "user_id", ty := .path ["i32"], id := true,
               relation := none, defaultable := false },
             { ident := "role_id", ty := .path ["i32"], id := true,
               relation := none, defaultable := false }] : List Georm.GeormField),
      f.id = true) ∧
    ((Georm.generate_update_query "user_roles"
        [{ ident := "user_id", ty := .path ["i32"], id := true,
           relation := none, defaultable := false },
         { ident := "role_id", ty := .path ["i32"], id := true,
           relation := none, defaultable := false }]
        (.composite [{ name := "user_id", ty := .path ["i32"] },
                     { name := "role_id", ty := .path ["i32"] }] "UserRoleId")).set_parts =
      [] ∧
    (Georm.generate_update_query "user_roles"
        [{ ident := "user_id", ty := .path ["i32"], id := true,
           relation := none, defaultable := false },
         { ident := "role_id", ty := .path ["i32"], id := true,
           relation := none, defaultable := false }]
        (.composite [{ name := "user_id", ty := .path ["i32"] },
                     { name := "role_id", ty := .path ["i32"] }] "UserRoleId")).query =
      "UPDATE " ++ "user_roles" ++ " SET  WHERE " ++
        String.intercalate " AND "
          (Georm.generate_update_query "user_roles"
            [{ ident := "user_id", ty := .path ["i32"], id := true,
               relation := none, defaultable := false },
             { ident := "role_id", ty := .path ["i32"], id := true,
               relation := none, defaultable := false }]
            (.composite [{ name := "user_id", ty := .path ["i32"] },
                         { name := "role_id", ty := .path ["i32"] }] "UserRoleId")).where_parts ++
        " RETURNING *" ∧
    (Georm.generate_upsert_query "user_roles"
        [{ ident := "user_id", ty := .path ["i32"], id := true,
           relation := none, defaultable := false },
         { ident := "role_id", ty := .path ["i32"], id := true,
           relation := none, defaultable := false }]
        (.composite [{ name := "user_id", ty := .path ["i32"] },
                     { name := "role_id", ty := .path ["i32"] }] "UserRoleId")).update_assignments =
      [] ∧
    (Georm.generate_upsert_query "user_roles"
        [{ ident := "user_id", ty := .path ["i32"], id := true,
           relation := none, defaultable := false },
         { ident := "role_id", ty := .path ["i32"], id := true,
           relation := none, defaultable := false }]
        (.composite [{ name := "user_id", ty := .path ["i32"] },
                     { name := "role_id", ty := .path ["i32"] }] "UserRoleId")).query =
      "INSERT INTO " ++ "user_roles" ++ " (" ++
        String.intercalate ", "
          (([{ ident := "user_id", ty := .path ["i32"], id := true,
               relation := none, defaultable := false },
             { ident := "role_id", ty := .path ["i32"], id := true,
               relation := none, defaultable := false }] : List Georm.GeormField).map
            (fun f => f.ident)) ++ ") VALUES (" ++
        String.intercalate ", "
          ((List.range ([{ ident := "user_id", ty := .path ["i32"], id := true,
                           relation := none, defaultable := false },
                         { ident := "role_id", ty := .path ["i32"], id := true,
                           relation := none, defaultable := false }] : List Georm.GeormField).length).map
            (fun i => "$" ++ toString (i + 1))) ++
        ") ON CONFLICT (" ++
        String.intercalate ", "
          (Georm.generate_upsert_query "user_roles"
            [{ ident := "user_id", ty := .path ["i32"], id := true,
               relation := none, defaultable := false },
             { ident := "role_id", ty := .path ["i32"], id := true,
               relation := none, defaultable := false }]
            (.composite [{ name := "user_id", ty := .path ["i32"] },
                         { name := "role_id", ty := .path ["i32"] }] "UserRoleId")).conflict_target ++
        ") DO UPDATE SET  RETURNING *") :=
  ⟨by decide, all_identifier_fields_empty_set_clause "user_roles" _ _ (by decide)⟩

/-- Helper: `create_primary_key` on a field list with no identifier
field. -/
theorem create_primary_key_nil_case (structName : String)
    (fields : List Georm.GeormField)
    (hl : fields.filter (fun f => f.id) = []) :
    Georm.create_primary_key structName fields = .error "No ID field found" := by
  unfold Georm.create_primary_key
  rw [hl]
  rfl

/-- Helper: `create_primary_key` on a field list with exactly one
identifier field. -/
theorem create_primary_key_single_case (structName : String)
    (fields : List Georm.GeormField) (a : Georm.GeormField)
    (hl : fields.filter (fun f => f.id) = [a]) :
    Georm.create_primary_key structName fields =
      .ok (.simple a.ident a.ty, none) := by
  unfold Georm.create_primary_key
  rw [hl]
  rfl

/-- Helper: `create_primary_key` on a field list with at least two
identifier fields. -/
theorem create_primary_key_composite_case (structName : String)
    (fields : List Georm.GeormField) (a b : Georm.GeormField)
    (t : List Georm.GeormField)
    (hl : fields.filter (fun f => f.id) = a :: b :: t) :
    Georm.create_primary_key structName fields =
      .ok (.composite
            ((a :: b :: t).map (fun f => { name := f.ident, ty := f.ty }))
            (structName ++ "Id"),
          some (Georm.generate_struct structName fields).2) := by
  unfold Georm.create_primary_key
  rw [hl]
  rfl

/-- Helper: the fold that models the source's push-during-map loop for
the composite WHERE clause, characterized in closed form. -/
theorem list_where_fold (ifs : List Georm.IdField) (k : Nat) (n : Nat)
    (ws bs : List String) :
    (ifs.enumFrom n).foldl
      (fun (acc : List String × List String) (p : Nat × Georm.IdField) =>
        (acc.1 ++ [p.2.name ++ " = $" ++ toString (k + p.1 + 1)], acc.2 ++ [p.2.name]))
      (ws, bs) =
    (ws ++ (ifs.enumFrom n).map (fun p => p.2.name ++ " = $" ++ toString (k + p.1 + 1)),
      bs ++ ifs.map (fun f => f.name)) := by
  induction ifs generalizing n ws bs with
  | nil => simp [List.enumFrom]
  | cons a t ih => simp [List.enumFrom_cons, ih]

/-- Helper: shifting the numbering offset of the WHERE fragments into
the enumeration start of the identifier-name list. -/
theorem list_enumFrom_shift_where (ifs : List Georm.IdField) (k n : Nat) :
    (ifs.enumFrom n).map (fun p => p.2.name ++ " = $" ++ toString (k + p.1 + 1)) =
      ((ifs.map (fun f => f.name)).enumFrom (k + n)).map
        (fun p => p.2 ++ " = $" ++ toString (p.1 + 1)) := by
  induction ifs generalizing n with
  | nil => rfl
  | cons a t ih =>
    simp only [List.enumFrom_cons, List.map_cons, ih]
    rfl

/-- Helper: the SET fragments followed by the composite WHERE fragments
are exactly the enumeration of the full bind list. -/
theorem composite_where_parts_enum (ifs : List Georm.IdField) (nonId : List String) :
    nonId.enum.map (fun p => p.2 ++ " = $" ++ toString (p.1 + 1)) ++
      (ifs.enumFrom 0).map
        (fun p => p.2.name ++ " = $" ++ toString (nonId.length + p.1 + 1)) =
      (nonId ++ ifs.map (fun f => f.name)).enum.map
        (fun p => p.2 ++ " = $" ++ toString (p.1 + 1)) := by
  rw [List.enum_append, List.map_append]
  congr 1
  rw [list_enumFrom_shift_where]
  simp

/-- Claim C5: in the synthesized update query the non-identifier fields
appear in the SET clause numbered `$1..$k` in declaration order, the
identifier field(s) continue the numbering `$k+1..$k+m` in the WHERE
clause in declaration order, and the values are bound in exactly that
order, so the placeholder count is the non-identifier count plus the
identifier count.  The concatenation of SET fragments and WHERE
fragments is exactly the enumeration of the bind list, fragment `i`
reading `<bind_i> = $(i+1)`. -/
theorem update_query_numbering (table structName : String)
    (fields : List Georm.GeormField) (idt : Georm.IdType)
    (code : Option Georm.StructDef)
    (hcpk : Georm.create_primary_key structName fields = .ok (idt, code)) :
    (Georm.generate_update_query table fields idt).binds =
      fields.filterMap (fun f => if f.id then none else some f.ident) ++
        (fields.filter (fun f => f.id)).map (fun f => f.ident) ∧
    (Georm.generate_update_query table fields idt).set_parts ++
        (Georm.generate_update_query table fields idt).where_parts =
      ((Georm.generate_update_query table fields idt).binds).enum.map
        (fun p => p.2 ++ " = $" ++ toString (p.1 + 1)) ∧
    (Georm.generate_update_query table fields idt).binds.length =
      (fields.filterMap (fun f => if f.id then none else some f.ident)).length +
        (fields.filter (fun f => f.id)).length ∧
    (Georm.generate_update_query table fields idt).query =
      "UPDATE " ++ table ++ " SET " ++
        String.intercalate ", "
          (Georm.generate_update_query table fields idt).set_parts ++
        " WHERE " ++
        String.intercalate " AND "
          (Georm.generate_update_query table fields idt).where_parts ++
        " RETURNING *" := by
  cases hl : fields.filter (fun f => f.id) with
  | nil =>
    rw [create_primary_key_nil_case structName fields hl] at hcpk
    exact absurd hcpk (by simp)
  | cons a rest =>
    cases rest with
    | nil =>
      rw [create_primary_key_single_case structName fields a hl] at hcpk
      simp only [Except.ok.injEq, Prod.mk.injEq] at hcpk
      obtain ⟨hidt, -⟩ := hcpk
      subst hidt
      refine ⟨rfl, ?_, by simp [Georm.generate_update_query], rfl⟩
      have hb : (Georm.generate_update_query table fields
            (.simple a.ident a.ty)).binds =
          fields.filterMap (fun f => if f.id then none else some f.ident) ++
            [a.ident] := rfl
      rw [hb, List.enum_append, List.map_append]
      rfl
    | cons b t =>
      rw [create_primary_key_composite_case structName fields a b t hl] at hcpk
      simp only [Except.ok.injEq, Prod.mk.injEq] at hcpk
      obtain ⟨hidt, -⟩ := hcpk
      subst hidt
      have hfold := list_where_fold
        ((a :: b :: t).map (fun f => ({ name := f.ident, ty := f.ty } : Georm.IdField)))
        (fields.filterMap (fun f => if f.id then none else some f.ident)).length 0
        [] (fields.filterMap (fun f => if f.id then none else some f.ident))
      have hwp : (Georm.generate_update_query table fields
            (.composite ((a :: b :: t).map (fun f => { name := f.ident, ty := f.ty }))
              (structName ++ "Id"))).where_parts =
          (((a :: b :: t).map
              (fun f => ({ name := f.ident, ty := f.ty } : Georm.IdField))).enumFrom 0).map
            (fun p => p.2.name ++ " = $" ++
              toString ((fields.filterMap
                (fun f => if f.id then none else some f.ident)).length + p.1 + 1)) := by
        have h1 : (Georm.generate_update_query table fields
              (.composite ((a :: b :: t).map (fun f => { name := f.ident, ty := f.ty }))
                (structName ++ "Id"))).where_parts =
            ((((a :: b :: t).map
                (fun f => ({ name := f.ident, ty := f.ty } : Georm.IdField))).enumFrom 0).foldl
              (fun (acc : List String × List String) (p : Nat × Georm.IdField) =>
                (acc.1 ++ [p.2.name ++ " = $" ++
                  toString ((fields.filterMap
                    (fun f => if f.id then none else some f.ident)).length + p.1 + 1)],
                  acc.2 ++ [p.2.name]))
              ([], fields.filterMap (fun f => if f.id then none else some f.ident))).1 := rfl
        rw [h1, hfold]
        simp
      have hbinds : (Georm.generate_update_query table fields
            (.composite ((a :: b :: t).map (fun f => { name := f.ident, ty := f.ty }))
              (structName ++ "Id"))).binds =
          fields.filterMap (fun f => if f.id then none else some f.ident) ++
            ((a :: b :: t).map
              (fun f => ({ name := f.ident, ty := f.ty } : Georm.IdField))).map
              (fun f => f.name) := by
        have h1 : (Georm.generate_update_query table fields
              (.composite ((a :: b :: t).map (fun f => { name := f.ident, ty := f.ty }))
                (structName ++ "Id"))).binds =
            ((((a :: b :: t).map
                (fun f => ({ name := f.ident, ty := f.ty } : Georm.IdField))).enumFrom 0).foldl
              (fun (acc : List String × List String) (p : Nat × Georm.IdField) =>
                (acc.1 ++ [p.2.name ++ " = $" ++
                  toString ((fields.filterMap
                    (fun f => if f.id then none else some f.ident)).length + p.1 + 1)],
                  acc.2 ++ [p.2.name]))
              ([], fields.filterMap (fun f => if f.id then none else some f.ident))).2 := rfl
        rw [h1, hfold]
      have hsp : (Georm.generate_update_query table fields
            (.composite ((a :: b :: t).map (fun f => { name := f.ident, ty := f.ty }))
              (structName ++ "Id"))).set_parts =
          (fields.filterMap (fun f => if f.id then none else some f.ident)).enum.map
            (fun p => p.2 ++ " = $" ++ toString (p.1 + 1)) := rfl
      refine ⟨?_, ?_, ?_, rfl⟩
      · rw [hbinds]
        simp [List.map_map, Function.comp]
      · rw [hsp, hwp, hbinds]
        exact composite_where_parts_enum _ _
      · rw [hbinds]
        simp

/-- Witness for C5: the `UserRole` entity (identifiers `user_id`,
`role_id`, plus `assigned_at`) gets
`UPDATE user_roles SET assigned_at = $1 WHERE user_id = $2 AND role_id = $3 RETURNING *`
with binds `[assigned_at, user_id, role_id]`. -/
theorem update_query_numbering_witness :
    Georm.create_primary_key "UserRole"
        [{ ident := "user_id", ty := .path ["i32"], id := true,
           relation := none, defaultable := false },
         { ident := "role_id", ty := .path ["i32"], id := true,
           relation := none, defaultable := false },
         { ident := "assigned_at", ty := .path ["DateTime"], id := false,
           relation := none, defaultable := false }] =
      .ok (.composite [{ name := "user_id", ty := .path ["i32"] },
                       { name := "role_id", ty := .path ["i32"] }] "UserRoleId",
           some { name := "UserRoleId", derives := [],
                  fields := [("user_id", .path ["i32"]), ("role_id", .path ["i32"])] }) ∧
    ((Georm.generate_update_query "user_roles"
        [{ ident := "user_id", ty := .path ["i32"], id := true,
           relation := none, defaultable := false },
         { ident := "role_id", ty := .path ["i32"], id := true,
           relation := none, defaultable := false },
         { ident := "assigned_at", ty := .path ["DateTime"], id := false,
           relation := none, defaultable := false }]
        (.composite [{ name := "user_id", ty := .path ["i32"] },
                     { name := "role_id", ty := .path ["i32"] }] "UserRoleId")).binds =
      ["assigned_at", "user_id", "role_id"] ∧
    (Georm.generate_update_query "user_roles"
        [{ ident := "user_id", ty := .path ["i32"], id := true,
           relation := none, defaultable := false },
         { ident := "role_id", ty := .path ["i32"], id := true,
           relation := none, defaultable := false },
         { ident := "assigned_at", ty := .path ["DateTime"], id := false,
           relation := none, defaultable := false }]
        (.composite [{ name := "user_id", ty := .path ["i32"] },
                     { name := "role_id", ty := .path ["i32"] }] "UserRoleId")).set_parts ++
      (Georm.generate_update_query "user_roles"
        [{ ident := "user_id", ty := .path ["i32"], id := true,
           relation := none, defaultable := false },
         { ident := "role_id", ty := .path ["i32"], id := true,
           relation := none, defaultable := false },
         { ident := "assigned_at", ty := .path ["DateTime"], id := false,
           relation := none, defaultable := false }]
        (.composite [{ name := "user_id", ty := .path ["i32"] },
                     { name := "role_id", ty := .path ["i32"] }] "UserRoleId")).where_parts =
      ["assigned_at = $1", "user_id = $2", "role_id = $3"] ∧
    (Georm.generate_update_query "user_roles"
        [{ ident := "user_id", ty := .path ["i32"], id := true,
           relation := none, defaultable := false },
         { ident := "role_id", ty := .path ["i32"], id := true,
           relation := none, defaultable := false },
         { ident := "assigned_at", ty := .path ["DateTime"], id := false,
           relation := none, defaultable := false }]
        (.composite [{ name := "user_id", ty := .path ["i32"] },
                     { name := "role_id", ty := .path ["i32"] }] "UserRoleId")).binds.length =
      1 + 2 ∧
    (Georm.generate_update_query "user_roles"
        [{ ident := "user_id", ty := .path ["i32"], id := true,
           relation := none, defaultable := false },
         { ident := "role_id", ty := .path ["i32"], id := true,
           relation := none, defaultable := false },
         { ident := "assigned_at", ty := .path ["DateTime"], id := false,
           relation := none, defaultable := false }]
        (.composite [{ name := "user_id", ty := .path ["i32"] },
                     { name := "role_id", ty := .path ["i32"] }] "UserRoleId")).query =
      "UPDATE user_roles SET assigned_at = $1 WHERE user_id = $2 AND role_id = $3 RETURNING *") :=
  ⟨rfl,
    update_query_numbering "user_roles" "UserRole"
      [{ ident := "user_id", ty := .path ["i32"], id := true,
         relation := none, defaultable := false },
       { ident := "role_id", ty := .path ["i32"], id := true,
         relation := none, defaultable := false },
       { ident := "assigned_at", ty := .path ["DateTime"], id := false,
         relation := none, defaultable := false }]
      (.composite [{ name := "user_id", ty := .path ["i32"] },
                   { name := "role_id", ty := .path ["i32"] }] "UserRoleId")
      (some { name := "UserRoleId", derives := [],
              fields := [("user_id", .path ["i32"]), ("role_id", .path ["i32"])] })
      rfl⟩

/-- Claim C6: the synthesized upsert is
`INSERT INTO <table> (<all fields in declaration order>) VALUES ($1..$n)
ON CONFLICT (<identifier field(s)>) DO UPDATE SET <non-identifier
field = EXCLUDED.field> RETURNING *`, each field bound exactly once in
declared order, with the conflict target the full identifier field set. -/
theorem upsert_query_shape (table structName : String)
    (fields : List Georm.GeormField) (idt : Georm.IdType)
    (code : Option Georm.StructDef)
    (hcpk : Georm.create_primary_key structName fields = .ok (idt, code))
    (hnodup : (fields.map (fun f => f.ident)).Nodup) :
    (Georm.generate_upsert_query table fields idt).columns =
      fields.map (fun f => f.ident) ∧
    (Georm.generate_upsert_query table fields idt).values =
      (List.range fields.length).map (fun i => "$" ++ toString (i + 1)) ∧
    (Georm.generate_upsert_query table fields idt).conflict_target =
      (fields.filter (fun f => f.id)).map (fun f => f.ident) ∧
    (Georm.generate_upsert_query table fields idt).update_assignments =
      (fields.filter (fun f => !f.id)).map
        (fun f => f.ident ++ " = EXCLUDED." ++ f.ident) ∧
    (Georm.generate_upsert_query table fields idt).binds =
      fields.map (fun f => f.ident) ∧
    (∀ c ∈ (Georm.generate_upsert_query table fields idt).columns,
      ((Georm.generate_upsert_query table fields idt).binds).count c = 1) ∧
    (Georm.generate_upsert_query table fields idt).query =
      "INSERT INTO " ++ table ++ " (" ++
        String.intercalate ", " (Georm.generate_upsert_query table fields idt).columns ++
        ") VALUES (" ++
        String.intercalate ", " (Georm.generate_upsert_query table fields idt).values ++
        ") ON CONFLICT (" ++
        String.intercalate ", "
          (Georm.generate_upsert_query table fields idt).conflict_target ++
        ") DO UPDATE SET " ++
        String.intercalate ", "
          (Georm.generate_upsert_query table fields idt).update_assignments ++
        " RETURNING *" := by
  cases hl : fields.filter (fun f => f.id) with
  | nil =>
    rw [create_primary_key_nil_case structName fields hl] at hcpk
    exact absurd hcpk (by simp)
  | cons a rest =>
    cases rest with
    | nil =>
      rw [create_primary_key_single_case structName fields a hl] at hcpk
      simp only [Except.ok.injEq, Prod.mk.injEq] at hcpk
      obtain ⟨hidt, -⟩ := hcpk
      subst hidt
      refine ⟨rfl, rfl, rfl, rfl, rfl, ?_, rfl⟩
      intro c hc
      exact List.count_eq_one_of_mem hnodup hc
    | cons b t =>
      rw [create_primary_key_composite_case structName fields a b t hl] at hcpk
      simp only [Except.ok.injEq, Prod.mk.injEq] at hcpk
      obtain ⟨hidt, -⟩ := hcpk
      subst hidt
      refine ⟨rfl, rfl, ?_, rfl, rfl, ?_, rfl⟩
      · simp [Georm.generate_upsert_query, List.map_map, Function.comp]
      · intro c hc
        exact List.count_eq_one_of_mem hnodup hc

/-- Witness for C6: the `UserRole` upsert is
`INSERT INTO user_roles (user_id, role_id, assigned_at) VALUES ($1, $2, $3)
ON CONFLICT (user_id, role_id) DO UPDATE SET
assigned_at = EXCLUDED.assigned_at RETURNING *`. -/
theorem upsert_query_shape_witness :
    (Georm.create_primary_key "UserRole"
        [{ ident := "user_id", ty := .path ["i32"], id := true,
           relation := none, defaultable := false },
         { ident := "role_id", ty := .path ["i32"], id := true,
           relation := none, defaultable := false },
         { ident := "assigned_at", ty := .path ["DateTime"], id := false,
           relation := none, defaultable := false }] =
      .ok (.composite [{ name := "user_id", ty := .path ["i32"] },
                       { name := "role_id", ty := .path ["i32"] }] "UserRoleId",
           some { name := "UserRoleId", derives := [],
                  fields := [("user_id", .path ["i32"]), ("role_id", .path ["i32"])] }) ∧
      (["user_id", "role_id", "assigned_at"] : List String).Nodup) ∧
    ((Georm.generate_upsert_query "user_roles"
        [{ ident := "user_id", ty := .path ["i32"], id := true,
           relation := none, defaultable := false },
         { ident := "role_id", ty := .path ["i32"], id := true,
           relation := none, defaultable := false },
         { ident := "assigned_at", ty := .path ["DateTime"], id := false,
           relation := none, defaultable := false }]
        (.composite [{ name := "user_id", ty := .path ["i32"] },
                     { name := "role_id", ty := .path ["i32"] }] "UserRoleId")).columns =
      ["user_id", "role_id", "assigned_at"] ∧
    (Georm.generate_upsert_query "user_roles"
        [{ ident := "user_id", ty := .path ["i32"], id := true,
           relation := none, defaultable := false },
         { ident := "role_id", ty := .path ["i32"], id := true,
           relation := none, defaultable := false },
         { ident := "assigned_at", ty := .path ["DateTime"], id := false,
           relation := none, defaultable := false }]
        (.composite [{ name := "user_id", ty := .path ["i32"] },
                     { name := "role_id", ty := .path ["i32"] }] "UserRoleId")).values =
      ["$1", "$2", "$3"] ∧
    (Georm.generate_upsert_query "user_roles"
        [{ ident := "user_id", ty := .path ["i32"], id := true,
           relation := none, defaultable := false },
         { ident := "role_id", ty := .path ["i32"], id := true,
           relation := none, defaultable := false },
         { ident := "assigned_at", ty := .path ["DateTime"], id := false,
           relation := none, defaultable := false }]
        (.composite [{ name := "user_id", ty := .path ["i32"] },
                     { name := "role_id", ty := .path ["i32"] }] "UserRoleId")).conflict_target =
      ["user_id", "role_id"] ∧
    (Georm.generate_upsert_query "user_roles"
        [{ ident := "user_id", ty := .path ["i32"], id := true,
           relation := none, defaultable := false },
         { ident := "role_id", ty := .path ["i32"], id := true,
           relation := none, defaultable := false },
         { ident := "assigned_at", ty := .path ["DateTime"], id := false,
           relation := none, defaultable := false }]
        (.composite [{ name := "user_id", ty := .path ["i32"] },
                     { name := "role_id", ty := .path ["i32"] }] "UserRoleId")).update_assignments =
      ["assigned_at = EXCLUDED.assigned_at"] ∧
    (Georm.generate_upsert_query "user_roles"
        [{ ident := "user_id", ty := .path ["i32"], id := true,
           relation := none, defaultable := false },
         { ident := "role_id", ty := .path ["i32"], id := true,
           relation := none, defaultable := false },
         { ident := "assigned_at", ty := .path ["DateTime"], id := false,
           relation := none, defaultable := false }]
        (.composite [{ name := "user_id", ty := .path ["i32"] },
                     { name := "role_id", ty := .path ["i32"] }] "UserRoleId")).binds =
      ["user_id", "role_id", "assigned_at"] ∧
    (∀ c ∈ (Georm.generate_upsert_query "user_roles"
        [{ ident := "user_id", ty := .path ["i32"], id := true,
           relation := none, defaultable := false },
         { ident := "role_id", ty := .path ["i32"], id := true,
           relation := none, defaultable := false },
         { ident := "assigned_at", ty := .path ["DateTime"], id := false,
           relation := none, defaultable := false }]
        (.composite [{ name := "user_id", ty := .path ["i32"] },
                     { name := "role_id", ty := .path ["i32"] }] "UserRoleId")).columns,
      ((Georm.generate_upsert_query "user_roles"
        [{ ident := "user_id", ty := .path ["i32"], id := true,
           relation := none, defaultable := false },
         { ident := "role_id", ty := .path ["i32"], id := true,
           relation := none, defaultable := false },
         { ident := "assigned_at", ty := .path ["DateTime"], id := false,
           relation := none, defaultable := false }]
        (.composite [{ name := "user_id", ty := .path ["i32"] },
                     { name := "role_id", ty := .path ["i32"] }] "UserRoleId")).binds).count c = 1) ∧
    (Georm.generate_upsert_query "user_roles"
        [{ ident := "user_id", ty := .path ["i32"], id := true,
           relation := none, defaultable := false },
         { ident := "role_id", ty := .path ["i32"], id := true,
           relation := none, defaultable := false },
         { ident := "assigned_at", ty := .path ["DateTime"], id := false,
           relation := none, defaultable := false }]
        (.composite [{ name := "user_id", ty := .path ["i32"] },
                     { name := "role_id", ty := .path ["i32"] }] "UserRoleId")).query =
      "INSERT INTO user_roles (user_id, role_id, assigned_at) VALUES ($1, $2, $3) ON CONFLICT (user_id, role_id) DO UPDATE SET assigned_at = EXCLUDED.assigned_at RETURNING *") :=
  ⟨⟨rfl, by decide⟩,
    upsert_query_shape "user_roles" "UserRole"
      [{ ident := "user_id", ty := .path ["i32"], id := true,
         relation := none, defaultable := false },
       { ident := "role_id", ty := .path ["i32"], id := true,
         relation := none, defaultable := false },
       { ident := "assigned_at", ty := .path ["DateTime"], id := false,
         relation := none, defaultable := false }]
      (.composite [{ name := "user_id", ty := .path ["i32"] },
                   { name := "role_id", ty := .path ["i32"] }] "UserRoleId")
      (some { name := "UserRoleId", derives := [],
              fields := [("user_id", .path ["i32"]), ("role_id", .path ["i32"])] })
      rfl (by decide)⟩

/-- Helper: every required (non-defaultable) companion field currently
holds a value. -/
theorem required_opt_value_isSome (f : Georm.DefField)
    (h : f.is_defaultable = false) : f.opt_value.isSome = true := by
  cases f with
  | required n v => rfl
  | defaultable n o => cases h

/-- Helper: the static fields of the companion all pass the
value-present filter. -/
theorem static_filter_isSome (self : List Georm.DefField) :
    (self.filter (fun f => !f.is_defaultable)).filter
        (fun f => f.opt_value.isSome) =
      self.filter (fun f => !f.is_defaultable) := by
  rw [List.filter_eq_self]
  intro a ha
  have hmem := List.of_mem_filter ha
  simp only [Bool.not_eq_true'] at hmem
  exact required_opt_value_isSome a hmem

/-- Helper: the dynamically built column list is a permutation of the
names of the fields whose value is present (spec wording for C3),
in static-then-dynamic order rather than declaration order. -/
theorem static_dyn_perm (self : List Georm.DefField) :
    ((self.filter (fun f => !f.is_defaultable)).map Georm.DefField.name ++
      ((self.filter (fun f => f.is_defaultable)).filter
        (fun f => f.opt_value.isSome)).map Georm.DefField.name).Perm
      ((self.filter (fun f => f.opt_value.isSome)).map Georm.DefField.name) := by
  induction self with
  | nil => exact List.Perm.nil
  | cons f t ih =>
    cases f with
    | required n v =>
      simp only [List.filter_cons, Georm.DefField.is_defaultable,
        Georm.DefField.opt_value, Bool.not_false, if_true, Option.isSome_some,
        List.map_cons, List.cons_append]
      exact List.Perm.cons n ih
    | defaultable n o =>
      cases o with
      | none =>
        simp only [List.filter_cons, Georm.DefField.is_defaultable,
          Georm.DefField.opt_value, Bool.not_true, if_false, Option.isSome_none]
        exact ih
      | some v =>
        simp only [List.filter_cons, Georm.DefField.is_defaultable,
          Georm.DefField.opt_value, Bool.not_true, if_false, Option.isSome_some,
          if_true, List.map_cons]
        exact List.Perm.trans List.perm_middle (List.Perm.cons n ih)

/-- Claim C3 (amended): the dynamically built column list contains
exactly the non-defaultable fields plus the defaultable fields whose
`Option` holds a value — but ordered with the non-defaultable fields
first (in declaration order) followed by the populated defaultable
fields (in declaration order), not in global declaration order;
for the spec's entity {id (defaultable), name, bio (defaultable)} with
id=None, name given, bio=Some the list is exactly [name, bio] with
exactly 2 placeholders. -/
theorem defaultable_create_columns (table : String) (self : List Georm.DefField) :
    (Georm.defaultable_create table self).columns =
      (self.filter (fun f => !f.is_defaultable)).map Georm.DefField.name ++
        ((self.filter (fun f => f.is_defaultable)).filter
          (fun f => f.opt_value.isSome)).map Georm.DefField.name ∧
    ((Georm.defaultable_create table self).columns).Perm
      ((self.filter (fun f => f.opt_value.isSome)).map Georm.DefField.name) ∧
    (Georm.defaultable_create table self).placeholders.length =
      (Georm.defaultable_create table self).columns.length ∧
    (Georm.defaultable_create "authors"
        [.defaultable "id" none, .required "name" "x",
         .defaultable "bio" (some "y")]).columns = ["name", "bio"] ∧
    (Georm.defaultable_create "authors"
        [.defaultable "id" none, .required "name" "x",
         .defaultable "bio" (some "y")]).placeholders = ["$1", "$2"] := by
  refine ⟨rfl, static_dyn_perm self, ?_, by decide, by decide⟩
  simp [Georm.defaultable_create]

/-- Counterexample for C3: for {id (defaultable, Some), name,
bio (defaultable, Some)} the code builds [name, id, bio] while the
claim's declaration order demands [id, name, bio]. -/
theorem defaultable_create_not_declaration_order :
    (Georm.defaultable_create "authors"
        [.defaultable "id" (some "7"), .required "name" "x",
         .defaultable "bio" (some "y")]).columns ≠
      Georm.declaration_order_columns
        [.defaultable "id" (some "7"), .required "name" "x",
         .defaultable "bio" (some "y")] := by
  decide

/-- Helper: with distinct field names, looking a field's name up in the
companion instance returns that field's current value. -/
theorem lookup_value_of_mem (self : List Georm.DefField)
    (hnodup : (self.map Georm.DefField.name).Nodup) (f : Georm.DefField)
    (hmem : f ∈ self) :
    Georm.lookup_value self f.name = f.opt_value := by
  unfold Georm.lookup_value
  induction self with
  | nil => cases hmem
  | cons g t ih =>
    rcases List.mem_cons.mp hmem with heq | hmem2
    · subst heq
      rw [List.find?_cons_of_pos _ (by simp)]
      rfl
    · have hne : g.name ≠ f.name := by
        intro hcontra
        have hfn : f.name ∈ t.map Georm.DefField.name := List.mem_map_of_mem _ hmem2
        rw [← hcontra] at hfn
        exact (List.nodup_cons.mp hnodup).1 hfn
      rw [List.find?_cons_of_neg _ (by simp [hne])]
      exact ih (List.nodup_cons.mp hnodup).2 hmem2

/-- Helper: over any sublist whose looked-up values are its own values,
the present-value column names align pointwise with the filtered-out
bound values. -/
theorem forall2_filter_filterMap (self l : List Georm.DefField)
    (h : ∀ f ∈ l, Georm.lookup_value self f.name = f.opt_value) :
    List.Forall₂ (fun c v => Georm.lookup_value self c = some v)
      ((l.filter (fun f => f.opt_value.isSome)).map Georm.DefField.name)
      (l.filterMap Georm.DefField.opt_value) := by
  induction l with
  | nil => exact List.Forall₂.nil
  | cons f t ih =>
    have hf := h f (List.mem_cons_self f t)
    have hrest := fun g hg => h g (List.mem_cons_of_mem f hg)
    cases hv : f.opt_value with
    | none =>
      simp only [List.filter_cons, List.filterMap_cons, hv, Option.isSome_none,
        if_false]
      exact ih hrest
    | some v =>
      simp only [List.filter_cons, List.filterMap_cons, hv, Option.isSome_some,
        if_true, List.map_cons]
      exact List.Forall₂.cons (by rw [hf, hv]) (ih hrest)

/-- Claim C4: for every invocation of the defaultable companion's
create, the placeholders are contiguous `$1..$n` with `n` the length of
the built column list, and the i-th bound value is the current value of
the field named by the i-th column (bind order matches the column list
exactly). -/
theorem defaultable_create_bind_alignment (table : String)
    (self : List Georm.DefField)
    (hnodup : (self.map Georm.DefField.name).Nodup) :
    (Georm.defaultable_create table self).placeholders =
      (List.range (Georm.defaultable_create table self).columns.length).map
        (fun i => "$" ++ toString (i + 1)) ∧
    (Georm.defaultable_create table self).binds.length =
      (Georm.defaultable_create table self).columns.length ∧
    List.Forall₂ (fun c v => Georm.lookup_value self c = some v)
      (Georm.defaultable_create table self).columns
      (Georm.defaultable_create table self).binds := by
  have h1 := forall2_filter_filterMap self
    (self.filter (fun f => !f.is_defaultable))
    (fun f hf => lookup_value_of_mem self hnodup f (List.mem_of_mem_filter hf))
  have h2 := forall2_filter_filterMap self
    (self.filter (fun f => f.is_defaultable))
    (fun f hf => lookup_value_of_mem self hnodup f (List.mem_of_mem_filter hf))
  rw [static_filter_isSome] at h1
  have hall := List.rel_append h1 h2
  exact ⟨rfl, hall.length_eq.symm, hall⟩

/-- Witness for C4: for the companion instance
{name="x" (required), id=Some "7", bio=None (both defaultable)} the
columns are [name, id], the placeholders [$1, $2], and the binds
["x", "7"] align with the columns' field values. -/
theorem defaultable_create_bind_alignment_witness :
    (([.required "name" "x", .defaultable "id" (some "7"),
       .defaultable "bio" none] : List Georm.DefField).map
        Georm.DefField.name).Nodup ∧
    ((Georm.defaultable_create "authors"
        [.required "name" "x", .defaultable "id" (some "7"),
         .defaultable "bio" none]).placeholders =
      (List.range (Georm.defaultable_create "authors"
        [.required "name" "x", .defaultable "id" (some "7"),
         .defaultable "bio" none]).columns.length).map
        (fun i => "$" ++ toString (i + 1)) ∧
    (Georm.defaultable_create "authors"
        [.required "name" "x", .defaultable "id" (some "7"),
         .defaultable "bio" none]).binds.length =
      (Georm.defaultable_create "authors"
        [.required "name" "x", .defaultable "id" (some "7"),
         .defaultable "bio" none]).columns.length ∧
    List.Forall₂
      (fun c v => Georm.lookup_value
        [.required "name" "x", .defaultable "id" (some "7"),
         .defaultable "bio" none] c = some v)
      (Georm.defaultable_create "authors"
        [.required "name" "x", .defaultable "id" (some "7"),
         .defaultable "bio" none]).columns
      (Georm.defaultable_create "authors"
        [.required "name" "x", .defaultable "id" (some "7"),
         .defaultable "bio" none]).binds) :=
  ⟨by decide,
    defaultable_create_bind_alignment "authors"
      [.required "name" "x", .defaultable "id" (some "7"),
       .defaultable "bio" none]
      (by decide)⟩
